import Mathlib

/-!
Shallow embedding of the analysis core of `Ctrax_zebrafish_tracking.py`
(zebrafish tank-tracking post-processing, Python 2).

Modelling conventions:
* A combined trajectory (the output of `combine_df`, a two-column pandas
  DataFrame with RangeIndex 0..n-1) is a `List (ℚ × ℚ)` of (x, y) samples.
  `df['x'][frame]` / `df['y'][frame]` are modelled by `xcoord` / `ycoord`;
  all accesses made by the program stay in range, so the out-of-range
  default never matters for the theorems below.
* Python floats are modelled as exact rationals; the one genuinely real
  quantity (`np.sqrt`) lands in `ℝ` via `Real.sqrt`.
* Python 2 `/` on ints is floor division (modelled by `Nat.div`), and
  `int()` on a float truncates toward zero (modelled by `pyInt`).
* The per-bucket `Output` dict keyed by the ten `Parameters` strings is
  modelled as a function `String → ℝ`; each loop iteration adds an
  independent per-frame contribution to each key, so the dict after the
  loop is the sum of per-frame contributions (`frameBump` / `bucketRaw`).
* The unguarded division by `len(frames)` raises `ZeroDivisionError` in
  Python when a bucket is empty; a bucket's finalization therefore
  returns an `Option`, with `none` modelling that crash.
-/

open scoped Classical

/-- Python 2 `int()` applied to a rational value: truncation toward zero
(`Int.tdiv` is T-division). -/
def pyInt (q : ℚ) : ℤ := Int.tdiv q.num (q.den : ℤ)

/-- `df['x'][frame]` on the combined trajectory. -/
def xcoord (df : List (ℚ × ℚ)) (frame : ℕ) : ℚ := (df.getD frame (0, 0)).1

/-- `df['y'][frame]` on the combined trajectory. -/
def ycoord (df : List (ℚ × ℚ)) (frame : ℕ) : ℚ := (df.getD frame (0, 0)).2

/-- `sum(abs(np.diff(l)))`: the sum of absolute consecutive differences of
a list of values. -/
def absDiffSum : List ℚ → ℚ
  | a :: b :: rest => |b - a| + absDiffSum (b :: rest)
  | _ => 0

/-- `analyze_frame_left_right` (source lines 76-91): horizontal half
classification with the `<=` tie-break to the left. -/
def analyze_frame_left_right (df : List (ℚ × ℚ)) (frame : ℕ) (left right : ℚ) :
    List String :=
  let half := (right - left) / 2 + left
  if xcoord df frame ≤ half then ["left 1/2"] else ["right 1/2"]

/-- `analyze_frame_top_bottom` (source lines 94-115): vertical half/third
classification; the Python function falls off the end (returns `None`)
when no branch fires, modelled by the (unreachable) empty list. -/
def analyze_frame_top_bottom (df : List (ℚ × ℚ)) (frame : ℕ) (top bottom : ℚ) :
    List String :=
  let y := ycoord df frame
  let half := (top - bottom) / 2 + bottom
  let two_thirds := 2 * (top - bottom) / 3 + bottom
  let one_third := (top - bottom) / 3 + bottom
  if y ≥ half ∧ y ≥ two_thirds then ["top 1/2", "top 1/3"]
  else if y ≥ half ∧ y < two_thirds then ["top 1/2", "middle 1/3"]
  else if y < half ∧ y ≥ one_third then ["bottom 1/2", "middle 1/3"]
  else if y < half ∧ y < one_third then ["bottom 1/2", "bottom 1/3"]
  else []

/-- `distance_from_bottom` (source lines 117-126). -/
def distance_from_bottom (df : List (ℚ × ℚ)) (frame : ℕ) (bottom : ℚ) : ℚ :=
  ycoord df frame - bottom

/-- `distance_travelled` (source lines 149-167).  The guard is the Python
membership test `(frame + bin_size + 1) in df.index`; when it holds the
positional slice `df['x'][frame : frame+bin_size+1]` holds the
`bin_size + 1` samples at positions `frame .. frame+bin_size`. -/
noncomputable def distance_travelled (df : List (ℚ × ℚ)) (frame : ℕ)
    (bin_size : ℕ) : ℝ :=
  if frame + bin_size + 1 < df.length then
    let x_list := ((df.drop frame).take (bin_size + 1)).map Prod.fst
    let x_diffs := absDiffSum x_list
    let y_list := ((df.drop frame).take (bin_size + 1)).map Prod.snd
    let y_diffs := absDiffSum y_list
    Real.sqrt ((x_diffs : ℝ) ^ 2 + (y_diffs : ℝ) ^ 2)
  else 0

/-- `analyze_freezing` (source lines 129-147): scale the bin displacement
by the calibration factor when one is given, then compare strictly
against the tolerance. -/
noncomputable def analyze_freezing (df : List (ℚ × ℚ)) (frame : ℕ)
    (bin_size : ℕ) (tolerance pix_con : ℝ) : Bool :=
  let d := distance_travelled df frame bin_size
  let d := if pix_con ≠ 0 then d * pix_con else d
  if d < tolerance then true else false

/-- The row labels of the output frame (source lines 188-190); the
per-bucket `Output` dict has exactly these keys. -/
def Parameters : List String :=
  ["top 1/2", "bottom 1/2", "top 1/3", "middle 1/3", "bottom 1/3",
   "distance from bottom", "freezing", "left 1/2", "right 1/2",
   "distance travelled"]

/-- Tank coordinates as extracted by `get_top_and_bottom`. -/
structure Tank where
  top : ℚ
  bottom : ℚ
  left : ℚ
  right : ℚ

/-- `frames_per_min = int(len(df.index) / trial_length)` (source line 215,
Python 2 integer division). -/
def frames_per_min (F trial_length : ℕ) : ℕ := F / trial_length

/-- `frames_per_bin = int((frames_per_min/60)*freeze_bin)` (source line
216): Python 2 floor-divides `frames_per_min` by 60 as integers, then
`int()` truncates the product. -/
def framesPerBinTime (fpm : ℕ) (freeze_bin : ℚ) : ℕ :=
  (pyInt (((fpm / 60 : ℕ) : ℚ) * freeze_bin)).toNat

/-- `frames_per_bin = int(fps*freeze_bin)` (source line 256). -/
def framesPerBinFps (fps freeze_bin : ℚ) : ℕ :=
  (pyInt (fps * freeze_bin)).toNat

/-- The contribution of one frame of a bucket to one key of the `Output`
dict (body of the per-frame loops, source lines 228-245 / 273-289): one
hit for each classification label returned, one hit for `freezing` when
`analyze_freezing` fires, and the two distance accumulators. -/
noncomputable def frameBump (df : List (ℚ × ℚ)) (tk : Tank) (fpb : ℕ)
    (tol con : ℝ) (f : ℕ) (p : String) : ℝ :=
  (if p ∈ analyze_frame_top_bottom df f tk.top tk.bottom then 1 else 0)
  + (if p ∈ analyze_frame_left_right df f tk.left tk.right then 1 else 0)
  + (if p = "freezing" ∧ analyze_freezing df f fpb tol con = true then 1 else 0)
  + (if p = "distance from bottom" then ((distance_from_bottom df f tk.bottom : ℚ) : ℝ) else 0)
  + (if p = "distance travelled" then distance_travelled df f 1 else 0)

/-- The `Output` dict accumulated over a bucket's frames: since every
iteration adds to each key independently, the value at a key is the sum
of the per-frame contributions. -/
noncomputable def bucketRaw (df : List (ℚ × ℚ)) (tk : Tank) (fpb : ℕ)
    (tol con : ℝ) (frames : List ℕ) (p : String) : ℝ :=
  (frames.map (fun f => frameBump df tk fpb tol con f p)).sum

/-- Finalizing one bucket column: the percentage normalization
`(Output[x]/float(len(frames))) * 100` for every key except
`distance travelled` (source lines 247-251 / 291-295), the uniform
`/ 100` correction of `distance from bottom` (line 298), and the real-unit
conversion of the two distance rows (lines 300-302).  `none` models the
`ZeroDivisionError` Python raises on an empty bucket. -/
noncomputable def bucketColumn (df : List (ℚ × ℚ)) (tk : Tank) (fpb : ℕ)
    (tol con : ℝ) (use_real_dist : Bool) (frames : List ℕ) :
    Option (String → ℝ) :=
  if frames.length = 0 then none
  else some (fun p =>
    let v1 : ℝ :=
      if p = "distance travelled" then bucketRaw df tk fpb tol con frames p
      else bucketRaw df tk fpb tol con frames p / (frames.length : ℝ) * 100
    let v2 : ℝ := if p = "distance from bottom" then v1 / 100 else v1
    if use_real_dist = true ∧ (p = "distance from bottom" ∨ p = "distance travelled")
      then v2 * con else v2)

/-- The `mode == "time"` branch of `min_by_min_top_bottom_analysis`
(source lines 209-251 plus the shared corrections 297-302): bucket `i`
(output column `i + 1`) covers frames
`[i * frames_per_min, (i+1) * frames_per_min)`. -/
noncomputable def min_by_min_time (df : List (ℚ × ℚ)) (tk : Tank)
    (trial_length : ℕ) (freeze_bin : ℚ) (tol : ℝ) (use_real_dist : Bool)
    (con : ℝ) : List (Option (String → ℝ)) :=
  let fpm := frames_per_min df.length trial_length
  let fpb := framesPerBinTime fpm freeze_bin
  (List.range trial_length).map (fun i =>
    bucketColumn df tk fpb tol con use_real_dist (List.range' (i * fpm) fpm))

/-- The column labels of the `mode == "fps"` branch (source lines
257-261): the whole minutes `1 .. int(trial_length)` followed by the
partial-minute label `int(trial_length) + ((trial_length % 1) * 60/100.0)`
(Python float `% 1` is `q - ⌊q⌋`). -/
def fpsLabels (F : ℕ) (fps : ℚ) : List ℚ :=
  let fpm : ℚ := fps * 60
  let trial_length : ℚ := (F : ℚ) / fpm
  ((List.range (pyInt trial_length).toNat).map (fun k => ((k + 1 : ℕ) : ℚ)))
    ++ [((pyInt trial_length : ℤ) : ℚ) + (trial_length - ⌊trial_length⌋) * 60 / 100]

/-- The frame range of fps-mode bucket `t` (source line 268):
`range(time_intervals[t] * int(fpm), int(time_intervals[t+1] * fpm))`,
where `time_intervals[t]` is the integer `t` for every bucket start and
`time_intervals[t+1]` is the `t`-th column label. -/
def fpsBucketFrames (F : ℕ) (fps : ℚ) (t : ℕ) : List ℕ :=
  let fpm : ℚ := fps * 60
  let start := t * (pyInt fpm).toNat
  let stop := (pyInt ((fpsLabels F fps).getD t 0 * fpm)).toNat
  List.range' start (stop - start)

/-- The `mode == "fps"` branch of `min_by_min_top_bottom_analysis`
(source lines 253-295 plus the shared corrections 297-302), as the list
of (column label, finalized column) pairs. -/
noncomputable def min_by_min_fps (df : List (ℚ × ℚ)) (tk : Tank) (fps : ℚ)
    (freeze_bin : ℚ) (tol : ℝ) (use_real_dist : Bool) (con : ℝ) :
    List (ℚ × Option (String → ℝ)) :=
  let F := df.length
  let fpb := framesPerBinFps fps freeze_bin
  (List.range (fpsLabels F fps).length).map (fun t =>
    ((fpsLabels F fps).getD t 0,
     bucketColumn df tk fpb tol con use_real_dist (fpsBucketFrames F fps t)))

/-- Reads the value of metric `p` in column `i` of a wide time-mode
output, defaulting to `0` when the column is absent or crashed. -/
noncomputable def emittedD (out : List (Option (String → ℝ))) (i : ℕ)
    (p : String) : ℝ :=
  ((out.getD i none).getD (fun _ => 0)) p

/-! ### Basic facts about the embedded primitives -/

lemma pyInt_eq_floor (q : ℚ) (hq : 0 ≤ q) : pyInt q = ⌊q⌋ := by
  unfold pyInt
  rw [Int.tdiv_eq_ediv (Rat.num_nonneg.mpr hq) (by positivity), Rat.floor_def]

lemma absDiffSum_of_short : ∀ (l : List ℚ), l.length ≤ 1 → absDiffSum l = 0
  | [], _ => rfl
  | [_], _ => rfl
  | _ :: _ :: _, h => by simp at h

lemma absDiffSum_cons₂ (a b : ℚ) (t : List ℚ) :
    absDiffSum (a :: b :: t) = |b - a| + absDiffSum (b :: t) := rfl

lemma absDiffSum_slice (xs : List ℚ) :
    ∀ (b f : ℕ), f + b + 1 ≤ xs.length →
      absDiffSum ((xs.drop f).take (b + 1)) =
        ∑ i ∈ Finset.range b, |xs.getD (f + i + 1) 0 - xs.getD (f + i) 0| := by
  intro b
  induction b with
  | zero =>
    intro f _
    rw [Finset.range_zero, Finset.sum_empty]
    apply absDiffSum_of_short
    rw [List.length_take]
    exact Nat.min_le_left _ _
  | succ b ih =>
    intro f h
    have hf : f < xs.length := by omega
    have hf1 : f + 1 < xs.length := by omega
    have hih := ih (f + 1) (by omega)
    rw [List.drop_eq_getElem_cons hf, List.take_succ_cons,
      List.drop_eq_getElem_cons hf1, List.take_succ_cons, absDiffSum_cons₂,
      ← List.take_succ_cons, ← List.drop_eq_getElem_cons hf1,
      hih, Finset.sum_range_succ', add_comm]
    congr 1
    · apply Finset.sum_congr rfl
      intro i _
      rw [show f + 1 + i + 1 = f + (i + 1) + 1 from by omega,
        show f + 1 + i = f + (i + 1) from by omega]
    · simp only [Nat.add_zero, List.getD_eq_getElem?_getD,
        List.getElem?_eq_getElem hf1, List.getElem?_eq_getElem hf, Option.getD_some]

lemma getD_map_fst (df : List (ℚ × ℚ)) (i : ℕ) :
    (df.map Prod.fst).getD i 0 = xcoord df i := by
  unfold xcoord
  rw [List.getD_eq_getElem?_getD, List.getD_eq_getElem?_getD, List.getElem?_map]
  cases df[i]? <;> rfl

lemma getD_map_snd (df : List (ℚ × ℚ)) (i : ℕ) :
    (df.map Prod.snd).getD i 0 = ycoord df i := by
  unfold ycoord
  rw [List.getD_eq_getElem?_getD, List.getD_eq_getElem?_getD, List.getElem?_map]
  cases df[i]? <;> rfl

/-- Claim C5 (amended): when the sample at position `f + b + 1` exists —
one sample more than the `b + 1`-sample window itself needs —
`distance_travelled` returns `sqrt((Σ|Δx|)² + (Σ|Δy|)²)` over the `b`
consecutive differences of samples `f .. f+b`; it returns `0` exactly
when `f + b + 1` runs past the last index, which includes the case of a
window that exactly reaches the end of the trajectory. -/
theorem distance_travelled_eval (df : List (ℚ × ℚ)) (f b : ℕ) :
    (f + b + 1 < df.length →
      distance_travelled df f b =
        Real.sqrt
          (((∑ i ∈ Finset.range b, |xcoord df (f + i + 1) - xcoord df (f + i)| : ℚ) : ℝ) ^ 2
            + ((∑ i ∈ Finset.range b, |ycoord df (f + i + 1) - ycoord df (f + i)| : ℚ) : ℝ) ^ 2))
    ∧ (df.length ≤ f + b + 1 → distance_travelled df f b = 0) := by
  constructor
  · intro h
    unfold distance_travelled
    rw [if_pos h]
    have hx : ((df.drop f).take (b + 1)).map Prod.fst =
        ((df.map Prod.fst).drop f).take (b + 1) := by
      rw [List.map_take, List.map_drop]
    have hy : ((df.drop f).take (b + 1)).map Prod.snd =
        ((df.map Prod.snd).drop f).take (b + 1) := by
      rw [List.map_take, List.map_drop]
    show Real.sqrt
        ((absDiffSum (((df.drop f).take (b + 1)).map Prod.fst) : ℝ) ^ 2
          + (absDiffSum (((df.drop f).take (b + 1)).map Prod.snd) : ℝ) ^ 2) = _
    rw [hx, hy, absDiffSum_slice _ b f (by rw [List.length_map]; omega),
      absDiffSum_slice _ b f (by rw [List.length_map]; omega)]
    simp only [getD_map_fst, getD_map_snd]
  · intro h
    unfold distance_travelled
    rw [if_neg (by omega)]

/-- Claim C5 counterexample: in a two-sample trajectory the window
`[0, 2)` (samples 0 and 1) lies entirely within the trajectory, and the
claimed formula gives `sqrt(3² + 4²) = 5`, yet `distance_travelled`
returns `0` because its guard also demands the sample at index 2. -/
theorem distance_travelled_guard_counterexample :
    distance_travelled [((0 : ℚ), (0 : ℚ)), (3, 4)] 0 1 = 0
      ∧ Real.sqrt (((|(3 : ℚ) - 0| : ℚ) : ℝ) ^ 2 + ((|(4 : ℚ) - 0| : ℚ) : ℝ) ^ 2) = 5
      ∧ (0 : ℝ) ≠ 5 := by
  refine ⟨?_, ?_, by norm_num⟩
  · unfold distance_travelled
    rw [if_neg (by simp)]
  · have : ((|(3 : ℚ) - 0| : ℚ) : ℝ) ^ 2 + ((|(4 : ℚ) - 0| : ℚ) : ℝ) ^ 2 = 25 := by
      push_cast
      norm_num
    rw [this, show (25 : ℝ) = 5 ^ 2 by norm_num, Real.sqrt_sq (by norm_num)]

/-- Claim C5 witness: a concrete in-range window where the formula applies
(`sqrt((|1-0|)² + (|1-0|)²)` at frame 0, bin 1 of a 4-sample trajectory)
and a concrete out-of-range window returning 0. -/
theorem distance_travelled_eval_witness :
    distance_travelled [((0 : ℚ), (0 : ℚ)), (1, 1), (3, 2), (3, 2)] 0 1 =
      Real.sqrt (((1 : ℚ) : ℝ) ^ 2 + ((1 : ℚ) : ℝ) ^ 2)
      ∧ distance_travelled [((0 : ℚ), (0 : ℚ)), (1, 1), (3, 2), (3, 2)] 2 1 = 0 := by
  constructor
  · have h := (distance_travelled_eval [((0 : ℚ), (0 : ℚ)), (1, 1), (3, 2), (3, 2)] 0 1).1
      (by simp)
    rw [h]
    congr 2
    · rw [Finset.sum_range_one]
      unfold xcoord
      norm_num
    · rw [Finset.sum_range_one]
      unfold ycoord
      norm_num
  · exact (distance_travelled_eval [((0 : ℚ), (0 : ℚ)), (1, 1), (3, 2), (3, 2)] 2 1).2 (by simp)

/-- Claim C4 counterexample: with 90 frames per minute and the default
0.5-second bin, the nearest integer to (90/60)·0.5 = 0.75 is 1, but the
code computes `int((90/60)*0.5)` with Python 2 integer division, giving
`int(1*0.5) = 0`; and in fps mode `int(5*0.3) = int(1.5) = 1` while
rounding would give 2. -/
theorem framesPerBin_round_counterexample :
    framesPerBinTime 90 (1 / 2) = 0
      ∧ round (((90 : ℚ) / 60) * (1 / 2)) = 1
      ∧ (0 : ℕ) ≠ 1
      ∧ framesPerBinFps 5 (3 / 10) = 1
      ∧ round ((5 : ℚ) * (3 / 10)) = 2
      ∧ (1 : ℕ) ≠ 2 := by
  refine ⟨?_, ?_, by norm_num, ?_, ?_, by norm_num⟩
  · unfold framesPerBinTime
    norm_num
    rw [pyInt_eq_floor _ (by norm_num)]
    norm_num
  · rw [round_eq]
    norm_num
  · unfold framesPerBinFps
    rw [pyInt_eq_floor _ (by norm_num)]
    norm_num
  · rw [round_eq]
    norm_num

/-- Claim C4 (amended): in both timing modes the freezing bin size is the
*truncation* (equivalently, for these nonnegative quantities, the floor)
of the product, not the nearest integer; and in time mode the frame rate
factor is the Python 2 *integer* quotient `frames_per_min / 60`, not the
exact ratio. -/
theorem framesPerBin_eq_floor (fpm : ℕ) (fps freeze_bin : ℚ)
    (hb : 0 ≤ freeze_bin) (hf : 0 ≤ fps) :
    (framesPerBinTime fpm freeze_bin : ℤ) = ⌊((fpm / 60 : ℕ) : ℚ) * freeze_bin⌋
      ∧ (framesPerBinFps fps freeze_bin : ℤ) = ⌊fps * freeze_bin⌋ := by
  have h1 : (0 : ℚ) ≤ ((fpm / 60 : ℕ) : ℚ) * freeze_bin :=
    mul_nonneg (by positivity) hb
  have h2 : (0 : ℚ) ≤ fps * freeze_bin := mul_nonneg hf hb
  constructor
  · unfold framesPerBinTime
    rw [pyInt_eq_floor _ h1, Int.toNat_of_nonneg (Int.floor_nonneg.mpr h1)]
  · unfold framesPerBinFps
    rw [pyInt_eq_floor _ h2, Int.toNat_of_nonneg (Int.floor_nonneg.mpr h2)]

/-- Claim C4 witness: the amended statement at frames-per-minute 90,
frame rate 5 and the default 0.5-second bin. -/
theorem framesPerBin_eq_floor_witness :
    (framesPerBinTime 90 (1 / 2) : ℤ) = ⌊((90 / 60 : ℕ) : ℚ) * (1 / 2)⌋
      ∧ (framesPerBinFps 5 (1 / 2) : ℤ) = ⌊(5 : ℚ) * (1 / 2)⌋ :=
  framesPerBin_eq_floor 90 5 (1 / 2) (by norm_num) (by norm_num)

/-- The four-way case analysis of the vertical classifier is exhaustive
for every input: the fall-off-the-end `None` branch is unreachable. -/
lemma analyze_tb_cases (df : List (ℚ × ℚ)) (f : ℕ) (top bottom : ℚ) :
    analyze_frame_top_bottom df f top bottom = ["top 1/2", "top 1/3"]
      ∨ analyze_frame_top_bottom df f top bottom = ["top 1/2", "middle 1/3"]
      ∨ analyze_frame_top_bottom df f top bottom = ["bottom 1/2", "middle 1/3"]
      ∨ analyze_frame_top_bottom df f top bottom = ["bottom 1/2", "bottom 1/3"] := by
  unfold analyze_frame_top_bottom
  rcases le_or_lt ((top - bottom) / 2 + bottom) (ycoord df f) with h | h
  · rcases le_or_lt (2 * (top - bottom) / 3 + bottom) (ycoord df f) with h2 | h2
    · exact Or.inl (by simp [ge_iff_le, h, h2, not_lt.mpr h])
    · exact Or.inr (Or.inl (by simp [ge_iff_le, h, h2, not_le.mpr h2, not_lt.mpr h]))
  · rcases le_or_lt ((top - bottom) / 3 + bottom) (ycoord df f) with h2 | h2
    · exact Or.inr (Or.inr (Or.inl (by simp [ge_iff_le, h, h2, not_le.mpr h])))
    · exact Or.inr (Or.inr (Or.inr
        (by simp [ge_iff_le, h, h2, not_le.mpr h, not_le.mpr h2])))

/-- The horizontal classifier written as a single conditional. -/
lemma analyze_lr_eq (df : List (ℚ × ℚ)) (f : ℕ) (left right : ℚ) :
    analyze_frame_left_right df f left right =
      if xcoord df f ≤ (right - left) / 2 + left then ["left 1/2"]
      else ["right 1/2"] := rfl

/-- Claim C7: for bounds of positive extent the vertical classifier
returns exactly one of the four label pairs (an exhaustive partition
under the `≥` tie-breaks) and the horizontal classifier returns
`left 1/2` exactly when `x ≤ left + (right-left)/2`, else `right 1/2`. -/
theorem classifier_partition (df : List (ℚ × ℚ)) (f : ℕ)
    (top bottom left right : ℚ) (htb : bottom < top) (hlr : left < right) :
    (analyze_frame_top_bottom df f top bottom = ["top 1/2", "top 1/3"]
      ∨ analyze_frame_top_bottom df f top bottom = ["top 1/2", "middle 1/3"]
      ∨ analyze_frame_top_bottom df f top bottom = ["bottom 1/2", "middle 1/3"]
      ∨ analyze_frame_top_bottom df f top bottom = ["bottom 1/2", "bottom 1/3"])
    ∧ (analyze_frame_left_right df f left right = ["left 1/2"]
        ↔ xcoord df f ≤ (right - left) / 2 + left)
    ∧ (analyze_frame_left_right df f left right = ["right 1/2"]
        ↔ ¬ xcoord df f ≤ (right - left) / 2 + left) := by
  refine ⟨analyze_tb_cases df f top bottom, ?_, ?_⟩
  · rw [analyze_lr_eq]
    by_cases hx : xcoord df f ≤ (right - left) / 2 + left
    · simp [hx]
    · simp [hx]
  · rw [analyze_lr_eq]
    by_cases hx : xcoord df f ≤ (right - left) / 2 + left
    · simp [hx]
    · simp [hx]

/-- Claim C7 witness: the classifiers applied to the point (50, 50) in
the tank with top 100, bottom 0, left 0, right 100. -/
theorem classifier_partition_witness :
    analyze_frame_left_right [((50 : ℚ), (50 : ℚ))] 0 0 100 = ["left 1/2"]
      ∧ analyze_frame_top_bottom [((50 : ℚ), (50 : ℚ))] 0 100 0 = ["top 1/2", "middle 1/3"] := by
  have h := classifier_partition [((50 : ℚ), (50 : ℚ))] 0 100 0 0 100
    (by norm_num) (by norm_num)
  constructor
  · exact h.2.1.mpr (by unfold xcoord; norm_num)
  · have hy : ycoord [((50 : ℚ), (50 : ℚ))] 0 = 50 := by unfold ycoord; norm_num
    rcases h.1 with hc | hc | hc | hc
    · exfalso
      unfold analyze_frame_top_bottom at hc
      rw [hy] at hc
      norm_num at hc
      exact absurd hc (by decide)
    · exact hc
    · exfalso
      unfold analyze_frame_top_bottom at hc
      rw [hy] at hc
      norm_num at hc
      exact absurd hc (by decide)
    · exfalso
      unfold analyze_frame_top_bottom at hc
      rw [hy] at hc
      norm_num at hc
      exact absurd hc (by decide)

/-- Claim C6: the freezing classifier fires exactly when the
(possibly calibration-scaled) bin displacement is strictly below the
tolerance; a displacement exactly at the tolerance is not freezing, one
at tolerance minus any positive epsilon is freezing. -/
theorem analyze_freezing_strict (df : List (ℚ × ℚ)) (f b : ℕ) (T con : ℝ) :
    (analyze_freezing df f b T con = true ↔
      (if con ≠ 0 then distance_travelled df f b * con
        else distance_travelled df f b) < T)
    ∧ ((if con ≠ 0 then distance_travelled df f b * con
        else distance_travelled df f b) = T →
      analyze_freezing df f b T con = false)
    ∧ (∀ ε : ℝ, 0 < ε →
      (if con ≠ 0 then distance_travelled df f b * con
        else distance_travelled df f b) = T - ε →
      analyze_freezing df f b T con = true) := by
  have key : analyze_freezing df f b T con = true ↔
      (if con ≠ 0 then distance_travelled df f b * con
        else distance_travelled df f b) < T := by
    unfold analyze_freezing
    by_cases hc : (if con ≠ 0 then distance_travelled df f b * con
        else distance_travelled df f b) < T
    · simp [hc]
    · simp [hc]
  refine ⟨key, fun h => ?_, fun ε hε h => ?_⟩
  · cases hb : analyze_freezing df f b T con
    · rfl
    · exact absurd (h ▸ key.mp hb) (lt_irrefl T)
  · exact key.mpr (by rw [h]; linarith)

/-- Claim C6 witness: a one-sample trajectory has bin displacement 0;
with tolerance 0 the frame is not freezing (strict comparison), with
tolerance 1 (= 0 + epsilon 1) it is. -/
theorem analyze_freezing_strict_witness :
    analyze_freezing [((0 : ℚ), (0 : ℚ))] 0 0 0 0 = false
      ∧ analyze_freezing [((0 : ℚ), (0 : ℚ))] 0 0 1 0 = true := by
  have hd : distance_travelled [((0 : ℚ), (0 : ℚ))] 0 0 = 0 := by
    unfold distance_travelled
    rw [if_neg (by simp)]
  constructor
  · exact (analyze_freezing_strict [((0 : ℚ), (0 : ℚ))] 0 0 0 0).2.1
      (by rw [if_neg (by simp), hd])
  · exact (analyze_freezing_strict [((0 : ℚ), (0 : ℚ))] 0 0 1 0).2.2 1 one_pos
      (by rw [if_neg (by simp), hd]; norm_num)

/-! ### Bucket accumulation lemmas -/

lemma sum_map_eq_length_mul (l : List ℕ) (g : ℕ → ℝ) (c : ℝ)
    (H : ∀ f ∈ l, g f = c) : (l.map g).sum = l.length * c := by
  induction l with
  | nil => simp
  | cons a t ih =>
    simp only [List.map_cons, List.sum_cons, List.length_cons]
    rw [H a (by simp), ih (fun f hf => H f (by simp [hf]))]
    push_cast
    ring

lemma sum_map_add_eq (l : List ℕ) (g h : ℕ → ℝ) (c : ℝ)
    (H : ∀ f ∈ l, g f + h f = c) :
    (l.map g).sum + (l.map h).sum = l.length * c := by
  induction l with
  | nil => simp
  | cons a t ih =>
    simp only [List.map_cons, List.sum_cons, List.length_cons]
    have ha := H a (by simp)
    have ih' := ih (fun f hf => H f (by simp [hf]))
    push_cast
    push_cast at ih'
    linarith

/-- Every frame contributes exactly one hit to the pair
{`top 1/2`, `bottom 1/2`}: the vertical classifier always returns exactly
one of them and nothing else in the loop touches these keys. -/
lemma frameBump_top_add_bottom (df : List (ℚ × ℚ)) (tk : Tank) (fpb : ℕ)
    (tol con : ℝ) (f : ℕ) :
    frameBump df tk fpb tol con f "top 1/2"
      + frameBump df tk fpb tol con f "bottom 1/2" = 1 := by
  unfold frameBump
  have hlr := analyze_lr_eq df f tk.left tk.right
  rcases analyze_tb_cases df f tk.top tk.bottom with hc | hc | hc | hc <;>
    rw [hc, hlr] <;>
    by_cases hx : xcoord df f ≤ (tk.right - tk.left) / 2 + tk.left <;>
    simp [hx]

lemma bucketRaw_top_add_bottom (df : List (ℚ × ℚ)) (tk : Tank) (fpb : ℕ)
    (tol con : ℝ) (frames : List ℕ) :
    bucketRaw df tk fpb tol con frames "top 1/2"
      + bucketRaw df tk fpb tol con frames "bottom 1/2" = (frames.length : ℝ) := by
  unfold bucketRaw
  rw [sum_map_add_eq _ _ _ 1
    (fun f _ => frameBump_top_add_bottom df tk fpb tol con f), mul_one]

/-- Reading column `i` of the time-mode output (for `i < trial_length`). -/
lemma min_by_min_time_getD (df : List (ℚ × ℚ)) (tk : Tank)
    (trial_length : ℕ) (fb : ℚ) (tol : ℝ) (ur : Bool) (con : ℝ) (i : ℕ)
    (hi : i < trial_length) :
    (min_by_min_time df tk trial_length fb tol ur con).getD i none =
      bucketColumn df tk
        (framesPerBinTime (frames_per_min df.length trial_length) fb) tol con ur
        (List.range' (i * frames_per_min df.length trial_length)
          (frames_per_min df.length trial_length)) := by
  simp only [min_by_min_time]
  rw [List.getD_eq_getElem?_getD, List.getElem?_map, List.getElem?_range hi]
  rfl

/-- Evaluating a finalized bucket at a percentage-normalized key. -/
lemma bucketColumn_percent (df : List (ℚ × ℚ)) (tk : Tank) (fpb : ℕ)
    (tol con : ℝ) (ur : Bool) (frames : List ℕ) (p : String)
    (hne : frames.length ≠ 0) (hp1 : p ≠ "distance travelled")
    (hp2 : p ≠ "distance from bottom") :
    (bucketColumn df tk fpb tol con ur frames).getD (fun _ => 0) p =
      bucketRaw df tk fpb tol con frames p / (frames.length : ℝ) * 100 := by
  unfold bucketColumn
  rw [if_neg hne]
  simp [hp1, hp2]

/-- Claim C8: in every time-mode bucket with a positive frame count, the
raw `top 1/2` and `bottom 1/2` hit counts sum to exactly the bucket's
frame count, and the emitted percentages for the pair sum to exactly
100. -/
theorem bucket_top_bottom_complementary (df : List (ℚ × ℚ)) (tk : Tank)
    (trial_length i : ℕ) (fb : ℚ) (tol con : ℝ) (ur : Bool)
    (hi : i < trial_length) (hfpm : 0 < frames_per_min df.length trial_length) :
    bucketRaw df tk (framesPerBinTime (frames_per_min df.length trial_length) fb)
        tol con
        (List.range' (i * frames_per_min df.length trial_length)
          (frames_per_min df.length trial_length)) "top 1/2"
      + bucketRaw df tk (framesPerBinTime (frames_per_min df.length trial_length) fb)
        tol con
        (List.range' (i * frames_per_min df.length trial_length)
          (frames_per_min df.length trial_length)) "bottom 1/2"
      = (frames_per_min df.length trial_length : ℝ)
    ∧ emittedD (min_by_min_time df tk trial_length fb tol ur con) i "top 1/2"
      + emittedD (min_by_min_time df tk trial_length fb tol ur con) i "bottom 1/2"
      = 100 := by
  have hlen : (List.range' (i * frames_per_min df.length trial_length)
      (frames_per_min df.length trial_length)).length =
      frames_per_min df.length trial_length := List.length_range' _ _ _
  have hraw := bucketRaw_top_add_bottom df tk
    (framesPerBinTime (frames_per_min df.length trial_length) fb) tol con
    (List.range' (i * frames_per_min df.length trial_length)
      (frames_per_min df.length trial_length))
  rw [hlen] at hraw
  constructor
  · exact hraw
  · unfold emittedD
    rw [min_by_min_time_getD df tk trial_length fb tol ur con i hi,
      bucketColumn_percent _ _ _ _ _ _ _ _ (by rw [hlen]; omega) (by decide) (by decide),
      bucketColumn_percent _ _ _ _ _ _ _ _ (by rw [hlen]; omega) (by decide) (by decide),
      hlen]
    have hne : (frames_per_min df.length trial_length : ℝ) ≠ 0 := by
      exact_mod_cast hfpm.ne'
    field_simp
    linarith [hraw]

/-- Claim C8 witness: a two-frame single-bucket trial in time mode. -/
theorem bucket_top_bottom_complementary_witness :
    emittedD (min_by_min_time [((0 : ℚ), (0 : ℚ)), (0, 0)] ⟨1, 0, 0, 1⟩ 1
        (1 / 2) 2 false 0) 0 "top 1/2"
      + emittedD (min_by_min_time [((0 : ℚ), (0 : ℚ)), (0, 0)] ⟨1, 0, 0, 1⟩ 1
        (1 / 2) 2 false 0) 0 "bottom 1/2" = 100 :=
  (bucket_top_bottom_complementary [((0 : ℚ), (0 : ℚ)), (0, 0)] ⟨1, 0, 0, 1⟩ 1 0
    (1 / 2) 2 0 false (by norm_num) (by norm_num [frames_per_min])).2

/-! ### Freezing with a zero-frame bin (claim C10) -/

lemma distance_travelled_bin_zero (df : List (ℚ × ℚ)) (f : ℕ) :
    distance_travelled df f 0 = 0 := by
  unfold distance_travelled
  by_cases h : f + 0 + 1 < df.length
  · rw [if_pos h]
    have hx : absDiffSum (((df.drop f).take (0 + 1)).map Prod.fst) = 0 := by
      apply absDiffSum_of_short
      rw [List.length_map, List.length_take]
      exact Nat.min_le_left _ _
    have hy : absDiffSum (((df.drop f).take (0 + 1)).map Prod.snd) = 0 := by
      apply absDiffSum_of_short
      rw [List.length_map, List.length_take]
      exact Nat.min_le_left _ _
    show Real.sqrt
        ((absDiffSum (((df.drop f).take (0 + 1)).map Prod.fst) : ℝ) ^ 2
          + (absDiffSum (((df.drop f).take (0 + 1)).map Prod.snd) : ℝ) ^ 2) = 0
    rw [hx, hy]
    simp
  · rw [if_neg h]

lemma analyze_freezing_bin_zero_true (df : List (ℚ × ℚ)) (f : ℕ) (T con : ℝ)
    (hT : 0 < T) : analyze_freezing df f 0 T con = true := by
  unfold analyze_freezing
  rw [distance_travelled_bin_zero df f]
  simp only [zero_mul, ite_self]
  rw [if_pos hT]

lemma freezing_not_in_tb (df : List (ℚ × ℚ)) (f : ℕ) (top bottom : ℚ) :
    "freezing" ∉ analyze_frame_top_bottom df f top bottom := by
  rcases analyze_tb_cases df f top bottom with hc | hc | hc | hc <;> rw [hc] <;> decide

lemma freezing_not_in_lr (df : List (ℚ × ℚ)) (f : ℕ) (left right : ℚ) :
    "freezing" ∉ analyze_frame_left_right df f left right := by
  rw [analyze_lr_eq]
  by_cases hx : xcoord df f ≤ (right - left) / 2 + left <;> simp [hx]

lemma frameBump_freezing (df : List (ℚ × ℚ)) (tk : Tank) (fpb : ℕ)
    (tol con : ℝ) (f : ℕ)
    (hfr : analyze_freezing df f fpb tol con = true) :
    frameBump df tk fpb tol con f "freezing" = 1 := by
  unfold frameBump
  rw [if_neg (freezing_not_in_tb df f tk.top tk.bottom),
    if_neg (freezing_not_in_lr df f tk.left tk.right)]
  simp [hfr]

/-- Claim C10: whenever the computed freezing bin size is 0 — in time
mode that is whenever frames-per-minute is below 120 with the default
half-second bin — the one-sample (or out-of-range) window has
displacement 0, so `analyze_freezing` holds at every frame for every
positive tolerance and every calibration factor, and the bucket's
freezing metric is 100%. -/
theorem freezing_bin_zero_all_frozen (df : List (ℚ × ℚ)) (tk : Tank)
    (trial_length i f : ℕ) (T con : ℝ) (hT : 0 < T) (hi : i < trial_length)
    (hlt : frames_per_min df.length trial_length < 120)
    (hpos : 0 < frames_per_min df.length trial_length) :
    framesPerBinTime (frames_per_min df.length trial_length) (1 / 2) = 0
    ∧ analyze_freezing df f 0 T con = true
    ∧ emittedD (min_by_min_time df tk trial_length (1 / 2) T false con) i
        "freezing" = 100 := by
  have hdiv : frames_per_min df.length trial_length / 60 = 0
      ∨ frames_per_min df.length trial_length / 60 = 1 := by omega
  have hbin : framesPerBinTime (frames_per_min df.length trial_length) (1 / 2) = 0 := by
    unfold framesPerBinTime
    rcases hdiv with h | h <;> rw [h]
    · norm_num [pyInt_eq_floor]
    · rw [show (((1 : ℕ) : ℚ) * (1 / 2)) = 1 / 2 by norm_num,
        pyInt_eq_floor _ (by norm_num)]
      norm_num
  refine ⟨hbin, analyze_freezing_bin_zero_true df f T con hT, ?_⟩
  have hlen : (List.range' (i * frames_per_min df.length trial_length)
      (frames_per_min df.length trial_length)).length =
      frames_per_min df.length trial_length := List.length_range' _ _ _
  unfold emittedD
  rw [min_by_min_time_getD df tk trial_length (1 / 2) T false con i hi,
    bucketColumn_percent _ _ _ _ _ _ _ _ (by rw [hlen]; omega) (by decide) (by decide)]
  have hraw : bucketRaw df tk
      (framesPerBinTime (frames_per_min df.length trial_length) (1 / 2)) T con
      (List.range' (i * frames_per_min df.length trial_length)
        (frames_per_min df.length trial_length)) "freezing" =
      ((List.range' (i * frames_per_min df.length trial_length)
        (frames_per_min df.length trial_length)).length : ℝ) := by
    unfold bucketRaw
    rw [sum_map_eq_length_mul _ _ 1 (fun g _ => frameBump_freezing df tk _ T con g
      (by rw [hbin]; exact analyze_freezing_bin_zero_true df g T con hT)), mul_one]
  rw [hraw, hlen]
  have hne : (frames_per_min df.length trial_length : ℝ) ≠ 0 := by
    exact_mod_cast hpos.ne'
  field_simp

/-- Claim C10 witness: 119 frames in a 1-minute trial give bin size 0 and
a fully-frozen bucket at tolerance 1. -/
theorem freezing_bin_zero_all_frozen_witness :
    framesPerBinTime
        (frames_per_min (List.replicate 119 ((0 : ℚ), (0 : ℚ))).length 1) (1 / 2) = 0
      ∧ analyze_freezing (List.replicate 119 ((0 : ℚ), (0 : ℚ))) 0 0 1 0 = true
      ∧ emittedD (min_by_min_time (List.replicate 119 ((0 : ℚ), (0 : ℚ)))
          ⟨100, 0, 0, 100⟩ 1 (1 / 2) 1 false 0) 0 "freezing" = 100 :=
  freezing_bin_zero_all_frozen (List.replicate 119 ((0 : ℚ), (0 : ℚ)))
    ⟨100, 0, 0, 100⟩ 1 0 0 1 0 (by norm_num) (by norm_num)
    (by norm_num [frames_per_min]) (by norm_num [frames_per_min])

/-! ### Empty buckets divide by zero (claim C9) -/

/-- Claim C9 (code bug exhibit): on an empty trajectory in time mode the
single bucket is empty and the normalization `Output[x]/float(len(frames))`
divides by zero — Python raises `ZeroDivisionError` (modelled by `none`);
nothing in lines 247-249 or 291-293 guards the zero-frame case. -/
theorem empty_trajectory_divides_by_zero :
    min_by_min_time [] ⟨100, 0, 0, 100⟩ 1 (1 / 2) 2 false 0 = [none] := by
  simp [min_by_min_time, frames_per_min, bucketColumn]

/-! ### fps mode: column labels and the partial final bucket (claims C2, C3) -/

lemma floor_2750_div_1800 : ⌊(2750 : ℚ) / (30 * 60)⌋ = 1 := by
  rw [Int.floor_eq_iff]
  norm_num

lemma pyInt_2750_div_1800 : pyInt ((2750 : ℚ) / (30 * 60)) = 1 := by
  rw [pyInt_eq_floor _ (by norm_num)]
  exact floor_2750_div_1800

/-- At frame rate 30, a 2750-frame trial has `trial_length` 2750/1800 =
1.5277…, so the columns are the single whole minute `1` followed by the
partial-minute label `1 + 0.5277… × 0.6 = 79/60`. -/
lemma fpsLabels_2750_30 : fpsLabels 2750 30 = [1, 79 / 60] := by
  simp only [fpsLabels]
  rw [show ((2750 : ℕ) : ℚ) / ((30 : ℚ) * 60) = (2750 : ℚ) / (30 * 60) by norm_num,
    pyInt_2750_div_1800, floor_2750_div_1800]
  norm_num [List.range_succ]

lemma pyInt_1800 : pyInt ((30 : ℚ) * 60) = 1800 := by
  rw [show ((30 : ℚ) * 60) = 1800 by norm_num, pyInt_eq_floor _ (by norm_num)]
  norm_num

/-- Claim C2 counterexample: the output has 2 buckets (one whole minute
plus the partial bucket), not 91 + 1, and the partial bucket's label is
79/60 ≈ 1.317, not ≈ 91.4: at 30 frames per second, 2750 frames are
1.53 minutes, not 91.67 (the spec's example divided by the frame rate
instead of by frames-per-minute). -/
theorem fps_label_counterexample :
    (min_by_min_fps (List.replicate 2750 ((0 : ℚ), (0 : ℚ))) ⟨100, 0, 0, 100⟩
        30 (1 / 2) 2 false 0).length = 2
      ∧ (2 : ℕ) ≠ 92
      ∧ fpsLabels 2750 30 = [1, 79 / 60]
      ∧ ((79 : ℚ) / 60) ≠ 457 / 5 := by
  refine ⟨?_, by norm_num, fpsLabels_2750_30, by norm_num⟩
  simp only [min_by_min_fps, List.length_replicate, fpsLabels_2750_30,
    List.length_map, List.length_range, List.length_cons, List.length_nil]

/-- Claim C2 (amended): in fps mode with frame rate 30 and 2750 frames
the aggregator emits 1 whole-minute bucket plus one trailing partial
bucket, whose column label 79/60 is exactly the literal arithmetic
`int(trial_length) + ((trial_length % 1) * 60/100)` with
`trial_length = 2750/(30·60)`. -/
theorem fps_label_arithmetic :
    (min_by_min_fps (List.replicate 2750 ((0 : ℚ), (0 : ℚ))) ⟨100, 0, 0, 100⟩
        30 (1 / 2) 2 false 0).map Prod.fst = [1, 79 / 60]
      ∧ ((79 : ℚ) / 60) =
        ((pyInt ((2750 : ℚ) / (30 * 60)) : ℤ) : ℚ)
          + ((2750 : ℚ) / (30 * 60) - ⌊(2750 : ℚ) / (30 * 60)⌋) * 60 / 100 := by
  constructor
  · simp only [min_by_min_fps, List.length_replicate, fpsLabels_2750_30,
      List.length_cons, List.length_nil, List.map_map]
    norm_num [List.range_succ]
  · rw [pyInt_2750_div_1800, floor_2750_div_1800]
    norm_num

/-- Claim C3 (code bug exhibit): at frame rate 30 with 2750 frames the
whole-minute bucket covers frames [0, 1800) but the trailing partial
bucket covers only [1800, 2370): its endpoint is computed from the
0.6-scaled column label, `int((1 + 0.5277…×0.6) × 1800) = 2370`, so the
leftover frames are not all covered — frames 2370 to 2749 (for example
frame 2400) fall in no bucket. -/
theorem fps_partial_bucket_gap :
    fpsBucketFrames 2750 30 1 = List.range' 1800 570
      ∧ (1800 + 570 : ℕ) = 2370
      ∧ (2370 : ℕ) ≠ 2750
      ∧ (2400 : ℕ) ∉ fpsBucketFrames 2750 30 0
      ∧ (2400 : ℕ) ∉ fpsBucketFrames 2750 30 1 := by
  have h0 : fpsBucketFrames 2750 30 0 = List.range' 0 1800 := by
    simp only [fpsBucketFrames, fpsLabels_2750_30]
    rw [pyInt_1800]
    norm_num
    rw [pyInt_eq_floor _ (by norm_num)]
    norm_num
    omega
  have h1 : fpsBucketFrames 2750 30 1 = List.range' 1800 570 := by
    simp only [fpsBucketFrames, fpsLabels_2750_30]
    rw [pyInt_1800]
    norm_num
    rw [pyInt_eq_floor _ (by norm_num)]
    norm_num
    omega
  refine ⟨h1, by norm_num, by norm_num, ?_, ?_⟩
  · rw [h0]
    intro hmem
    rw [List.mem_range'] at hmem
    omega
  · rw [h1]
    intro hmem
    rw [List.mem_range'] at hmem
    omega

/-! ### End-to-end scenario: 600 constant frames (claim C1) -/

/-- The scenario trajectory: 600 frames at constant position (50, 50). -/
def df600 : List (ℚ × ℚ) := List.replicate 600 (50, 50)

/-- The scenario tank: top 100, bottom 0, left 0, right 100. -/
def tank600 : Tank := ⟨100, 0, 0, 100⟩

lemma df600_x (f : ℕ) (hf : f < 600) : xcoord df600 f = 50 := by
  unfold xcoord df600
  rw [List.getD_eq_getElem?_getD, List.getElem?_replicate_of_lt hf]
  rfl

lemma df600_y (f : ℕ) (hf : f < 600) : ycoord df600 f = 50 := by
  unfold ycoord df600
  rw [List.getD_eq_getElem?_getD, List.getElem?_replicate_of_lt hf]
  rfl

lemma absDiffSum_replicate (n : ℕ) (q : ℚ) :
    absDiffSum (List.replicate n q) = 0 := by
  induction n with
  | zero => rfl
  | succ n ih =>
    cases n with
    | zero => rfl
    | succ m =>
      rw [List.replicate_succ, List.replicate_succ, absDiffSum_cons₂,
        ← List.replicate_succ, ih]
      simp

lemma distance_travelled_df600 (f b : ℕ) : distance_travelled df600 f b = 0 := by
  unfold distance_travelled
  by_cases h : f + b + 1 < df600.length
  · rw [if_pos h]
    show Real.sqrt
        ((absDiffSum (((df600.drop f).take (b + 1)).map Prod.fst) : ℝ) ^ 2
          + (absDiffSum (((df600.drop f).take (b + 1)).map Prod.snd) : ℝ) ^ 2) = 0
    unfold df600
    rw [List.drop_replicate, List.take_replicate, List.map_replicate,
      List.map_replicate]
    simp [absDiffSum_replicate]
  · rw [if_neg h]

lemma analyze_freezing_df600 (f b : ℕ) (T con : ℝ) :
    analyze_freezing df600 f b T con = if 0 < T then true else false := by
  unfold analyze_freezing
  rw [distance_travelled_df600 f b]
  simp only [zero_mul, ite_self]

lemma tb_df600 (f : ℕ) (hf : f < 600) :
    analyze_frame_top_bottom df600 f 100 0 = ["top 1/2", "middle 1/3"] := by
  unfold analyze_frame_top_bottom
  rw [df600_y f hf]
  norm_num

lemma lr_df600 (f : ℕ) (hf : f < 600) :
    analyze_frame_left_right df600 f 0 100 = ["left 1/2"] := by
  rw [analyze_lr_eq, df600_x f hf]
  norm_num

lemma frameBump_df600 (fpb : ℕ) (T con : ℝ) (f : ℕ) (hf : f < 600) :
    frameBump df600 tank600 fpb T con f "top 1/2" = 1
    ∧ frameBump df600 tank600 fpb T con f "bottom 1/2" = 0
    ∧ frameBump df600 tank600 fpb T con f "middle 1/3" = 1
    ∧ frameBump df600 tank600 fpb T con f "bottom 1/3" = 0
    ∧ frameBump df600 tank600 fpb T con f "left 1/2" = 1
    ∧ frameBump df600 tank600 fpb T con f "freezing" = (if 0 < T then 1 else 0)
    ∧ frameBump df600 tank600 fpb T con f "distance from bottom" = 50
    ∧ frameBump df600 tank600 fpb T con f "distance travelled" = 0 := by
  have hdb : distance_from_bottom df600 f 0 = 50 := by
    unfold distance_from_bottom
    rw [df600_y f hf]
    norm_num
  unfold frameBump
  rw [show tank600.top = 100 from rfl, show tank600.bottom = 0 from rfl,
    show tank600.left = 0 from rfl, show tank600.right = 100 from rfl,
    tb_df600 f hf, lr_df600 f hf, hdb, distance_travelled_df600 f 1,
    analyze_freezing_df600 f fpb T con]
  by_cases hT : 0 < T
  · simp only [if_pos hT]
    refine ⟨?_, ?_, ?_, ?_, ?_, ?_, ?_, ?_⟩ <;> simp
  · simp only [if_neg hT]
    refine ⟨?_, ?_, ?_, ?_, ?_, ?_, ?_, ?_⟩ <;> simp

/-- Evaluating a finalized bucket at the `distance from bottom` key with
no real-unit conversion: percentage normalization then the `/ 100`
correction. -/
lemma bucketColumn_dfb (df : List (ℚ × ℚ)) (tk : Tank) (fpb : ℕ)
    (tol con : ℝ) (frames : List ℕ) (hne : frames.length ≠ 0) :
    (bucketColumn df tk fpb tol con false frames).getD (fun _ => 0)
        "distance from bottom" =
      bucketRaw df tk fpb tol con frames "distance from bottom"
        / (frames.length : ℝ) * 100 / 100 := by
  unfold bucketColumn
  rw [if_neg hne]
  simp

/-- Evaluating a finalized bucket at the `distance travelled` key with no
real-unit conversion: the raw accumulated sum is passed through. -/
lemma bucketColumn_dt (df : List (ℚ × ℚ)) (tk : Tank) (fpb : ℕ)
    (tol con : ℝ) (frames : List ℕ) (hne : frames.length ≠ 0) :
    (bucketColumn df tk fpb tol con false frames).getD (fun _ => 0)
        "distance travelled" =
      bucketRaw df tk fpb tol con frames "distance travelled" := by
  unfold bucketColumn
  rw [if_neg hne]
  simp

/-- Full evaluation of the single time-mode bucket of the 600-frame
constant-position scenario, for an arbitrary tolerance. -/
lemma c1_eval (T con : ℝ) :
    emittedD (min_by_min_time df600 tank600 1 (1 / 2) T false con) 0 "top 1/2" = 100
    ∧ emittedD (min_by_min_time df600 tank600 1 (1 / 2) T false con) 0 "bottom 1/2" = 0
    ∧ emittedD (min_by_min_time df600 tank600 1 (1 / 2) T false con) 0 "middle 1/3" = 100
    ∧ emittedD (min_by_min_time df600 tank600 1 (1 / 2) T false con) 0 "bottom 1/3" = 0
    ∧ emittedD (min_by_min_time df600 tank600 1 (1 / 2) T false con) 0 "left 1/2" = 100
    ∧ emittedD (min_by_min_time df600 tank600 1 (1 / 2) T false con) 0 "freezing"
        = (if 0 < T then 100 else 0)
    ∧ emittedD (min_by_min_time df600 tank600 1 (1 / 2) T false con) 0
        "distance from bottom" = 50
    ∧ emittedD (min_by_min_time df600 tank600 1 (1 / 2) T false con) 0
        "distance travelled" = 0 := by
  have hfpm : frames_per_min df600.length 1 = 600 := by
    unfold frames_per_min df600
    rw [List.length_replicate, Nat.div_one]
  have hcol := min_by_min_time_getD df600 tank600 1 (1 / 2) T false con 0 (by norm_num)
  rw [hfpm] at hcol
  have hlen : (List.range' (0 * 600) 600).length = 600 := List.length_range' _ _ _
  have hne : (List.range' (0 * 600) 600).length ≠ 0 := by rw [hlen]; norm_num
  have hmem : ∀ g ∈ List.range' (0 * 600) 600, g < 600 := by
    intro g hg
    rw [List.mem_range'] at hg
    obtain ⟨i, hi, rfl⟩ := hg
    omega
  have hraw : ∀ (p : String) (c : ℝ),
      (∀ g, g < 600 → frameBump df600 tank600 (framesPerBinTime 600 (1 / 2)) T con g p = c) →
      bucketRaw df600 tank600 (framesPerBinTime 600 (1 / 2)) T con
        (List.range' (0 * 600) 600) p = 600 * c := by
    intro p c hc
    unfold bucketRaw
    rw [sum_map_eq_length_mul _ _ c (fun g hg => hc g (hmem g hg)), hlen]
    norm_num
  have htop := hraw "top 1/2" 1
    (fun g hg => (frameBump_df600 (framesPerBinTime 600 (1 / 2)) T con g hg).1)
  have hbot := hraw "bottom 1/2" 0
    (fun g hg => (frameBump_df600 (framesPerBinTime 600 (1 / 2)) T con g hg).2.1)
  have hmid := hraw "middle 1/3" 1
    (fun g hg => (frameBump_df600 (framesPerBinTime 600 (1 / 2)) T con g hg).2.2.1)
  have hbth := hraw "bottom 1/3" 0
    (fun g hg => (frameBump_df600 (framesPerBinTime 600 (1 / 2)) T con g hg).2.2.2.1)
  have hlft := hraw "left 1/2" 1
    (fun g hg => (frameBump_df600 (framesPerBinTime 600 (1 / 2)) T con g hg).2.2.2.2.1)
  have hfrz := hraw "freezing" (if 0 < T then 1 else 0)
    (fun g hg => (frameBump_df600 (framesPerBinTime 600 (1 / 2)) T con g hg).2.2.2.2.2.1)
  have hdfb := hraw "distance from bottom" 50
    (fun g hg => (frameBump_df600 (framesPerBinTime 600 (1 / 2)) T con g hg).2.2.2.2.2.2.1)
  have hdtv := hraw "distance travelled" 0
    (fun g hg => (frameBump_df600 (framesPerBinTime 600 (1 / 2)) T con g hg).2.2.2.2.2.2.2)
  unfold emittedD
  rw [hcol]
  refine ⟨?_, ?_, ?_, ?_, ?_, ?_, ?_, ?_⟩
  · rw [bucketColumn_percent _ _ _ _ _ _ _ _ hne (by decide) (by decide), htop, hlen]
    norm_num
  · rw [bucketColumn_percent _ _ _ _ _ _ _ _ hne (by decide) (by decide), hbot, hlen]
    norm_num
  · rw [bucketColumn_percent _ _ _ _ _ _ _ _ hne (by decide) (by decide), hmid, hlen]
    norm_num
  · rw [bucketColumn_percent _ _ _ _ _ _ _ _ hne (by decide) (by decide), hbth, hlen]
    norm_num
  · rw [bucketColumn_percent _ _ _ _ _ _ _ _ hne (by decide) (by decide), hlft, hlen]
    norm_num
  · rw [bucketColumn_percent _ _ _ _ _ _ _ _ hne (by decide) (by decide), hfrz, hlen]
    by_cases hT : 0 < T
    · simp only [if_pos hT]
      norm_num
    · simp only [if_neg hT]
      norm_num
  · rw [bucketColumn_dfb _ _ _ _ _ _ hne, hdfb, hlen]
    norm_num
  · rw [bucketColumn_dt _ _ _ _ _ _ hne, hdtv]
    norm_num

/-- Claim C1 counterexample: at the stated input (600 frames at (50, 50),
bounds top 100 / bottom 0 / left 0 / right 100, time mode, 1 minute) the
bucket reports bottom-half 0% (the midpoint point is classified top-half
by the `>=` tie-break), distance-from-bottom 50 (the per-frame average:
the `*100` percentage step and the final `/100` cancel), and, at
tolerance exactly 0, freezing 0% (strict `<`) — refuting the claimed
bottom-half 100%, distance-from-bottom 0.5, and freezing 100% for every
tolerance >= 0. -/
theorem end_to_end_counterexample :
    emittedD (min_by_min_time df600 tank600 1 (1 / 2) 2 false 0) 0 "bottom 1/2" = 0
    ∧ (0 : ℝ) ≠ 100
    ∧ emittedD (min_by_min_time df600 tank600 1 (1 / 2) 2 false 0) 0
        "distance from bottom" = 50
    ∧ (50 : ℝ) ≠ 1 / 2
    ∧ emittedD (min_by_min_time df600 tank600 1 (1 / 2) 0 false 0) 0 "freezing" = 0 := by
  have h2 := c1_eval 2 0
  have h0 := c1_eval 0 0
  refine ⟨h2.2.1, by norm_num, h2.2.2.2.2.2.2.1, by norm_num, ?_⟩
  have hfrz := h0.2.2.2.2.2.1
  rwa [if_neg (lt_irrefl (0 : ℝ))] at hfrz

/-- Claim C1 (amended): for the 600-frame constant-(50,50) trajectory in
bounds top 100 / bottom 0 / left 0 / right 100, time mode with length 1
minute, the single bucket reports top-half 100% and middle-third 100%
(the point lies exactly on the vertical midpoint, which the `>=`
tie-break assigns to the top half, and strictly below two-thirds),
bottom-half and bottom-third 0%, left-half 100%, freezing 100% for every
tolerance > 0, distance-from-bottom 50 (the per-frame average — the
percentage `*100` and the final `/100` correction cancel), and
distance-travelled 0. -/
theorem end_to_end_scenario (T con : ℝ) (hT : 0 < T) :
    emittedD (min_by_min_time df600 tank600 1 (1 / 2) T false con) 0 "top 1/2" = 100
    ∧ emittedD (min_by_min_time df600 tank600 1 (1 / 2) T false con) 0 "bottom 1/2" = 0
    ∧ emittedD (min_by_min_time df600 tank600 1 (1 / 2) T false con) 0 "middle 1/3" = 100
    ∧ emittedD (min_by_min_time df600 tank600 1 (1 / 2) T false con) 0 "bottom 1/3" = 0
    ∧ emittedD (min_by_min_time df600 tank600 1 (1 / 2) T false con) 0 "left 1/2" = 100
    ∧ emittedD (min_by_min_time df600 tank600 1 (1 / 2) T false con) 0 "freezing" = 100
    ∧ emittedD (min_by_min_time df600 tank600 1 (1 / 2) T false con) 0
        "distance from bottom" = 50
    ∧ emittedD (min_by_min_time df600 tank600 1 (1 / 2) T false con) 0
        "distance travelled" = 0 := by
  have h := c1_eval T con
  refine ⟨h.1, h.2.1, h.2.2.1, h.2.2.2.1, h.2.2.2.2.1, ?_,
    h.2.2.2.2.2.2.1, h.2.2.2.2.2.2.2⟩
  rw [h.2.2.2.2.2.1, if_pos hT]

/-- Claim C1 witness: the amended scenario at the default tolerance 2. -/
theorem end_to_end_scenario_witness :
    emittedD (min_by_min_time df600 tank600 1 (1 / 2) 2 false 0) 0 "top 1/2" = 100
    ∧ emittedD (min_by_min_time df600 tank600 1 (1 / 2) 2 false 0) 0 "left 1/2" = 100
    ∧ emittedD (min_by_min_time df600 tank600 1 (1 / 2) 2 false 0) 0 "freezing" = 100
    ∧ emittedD (min_by_min_time df600 tank600 1 (1 / 2) 2 false 0) 0
        "distance travelled" = 0 := by
  have h := end_to_end_scenario 2 0 (by norm_num)
  exact ⟨h.1, h.2.2.2.2.1, h.2.2.2.2.2.1, h.2.2.2.2.2.2.2⟩
